import Mathlib

/-!
Verification of the tangent-mode command and the performance-metrics
calculator of the `amazon-q-developer-cli` chat client.

Shallow embedding conventions:
* Rust `u64` / `usize` values are modelled as `Nat`; `u64::saturating_sub`
  is `Nat` truncated subtraction (exact for all machine values, never
  panics, never overflows).
* Rust `f64` arithmetic on the metric fields is modelled over `ℚ`: the
  claims at stake are about which branch is taken and which exact quotient
  is produced, not about binary rounding.
* Fallible Rust paths return `Option`; a `panic!`/`unwrap()` failure is
  modelled as `none` of the surrounding computation.
-/

/-- Token metrics attached to a request
(`parser::TokenMetrics`, fields used by `performance.rs`). -/
structure TokenMetrics where
  total_tokens : Nat
  prompt_tokens : Nat
  time_to_first_token_ms : Option Nat
  time_to_last_token_ms : Option Nat
  deriving DecidableEq

/-- Request metadata (`parser::RequestMetadata`, fields used by
`PerformanceMetrics::calculate`). -/
structure RequestMetadata where
  request_start_timestamp_ms : Nat
  stream_end_timestamp_ms : Nat
  token_metrics : Option TokenMetrics
  deriving DecidableEq

/-- `PerformanceMetrics` record (performance.rs lines 6-24). -/
structure PerformanceMetrics where
  tokens_per_second : ℚ
  time_to_first_token_ms : Nat
  total_duration_ms : Nat
  prompt_processing_time_ms : Option Nat
  generation_time_ms : Nat
  average_inter_token_latency_ms : ℚ
  total_tokens : Nat
  prompt_tokens : Nat
  deriving DecidableEq

/-- `PerformanceMetrics::calculate` (performance.rs lines 28-72).
`u64::saturating_sub` is `Nat` subtraction; the `f64` divisions are exact
rational divisions here. -/
def PerformanceMetrics.calculate (metadata : RequestMetadata) : Option PerformanceMetrics :=
  match metadata.token_metrics with
  | none => none
  | some token_metrics =>
    let total_duration_ms :=
      metadata.stream_end_timestamp_ms - metadata.request_start_timestamp_ms
    match token_metrics.time_to_first_token_ms with
    | none => none
    | some time_to_first_token_ms =>
      let generation_time_ms :=
        (token_metrics.time_to_last_token_ms.getD time_to_first_token_ms)
          - time_to_first_token_ms
      let tokens_per_second : ℚ :=
        if generation_time_ms > 0 then
          (token_metrics.total_tokens : ℚ) / ((generation_time_ms : ℚ) / 1000)
        else 0
      let average_inter_token_latency_ms : ℚ :=
        if token_metrics.total_tokens > 1 then
          (generation_time_ms : ℚ) / ((token_metrics.total_tokens - 1 : Nat) : ℚ)
        else 0
      let prompt_processing_time_ms := some time_to_first_token_ms
      some
        { tokens_per_second := tokens_per_second
          time_to_first_token_ms := time_to_first_token_ms
          total_duration_ms := total_duration_ms
          prompt_processing_time_ms := prompt_processing_time_ms
          generation_time_ms := generation_time_ms
          average_inter_token_latency_ms := average_inter_token_latency_ms
          total_tokens := token_metrics.total_tokens
          prompt_tokens := token_metrics.prompt_tokens }

/-- Rendering of Rust `{:.1}` on the (non-negative) metric values:
value rounded to tenths, printed as `whole.tenth`.  (Rust rounds the
nearest-tenth digit of the `f64`; on the values compared below the two
agree and no rounding tie arises.) -/
def fmtDec1 (q : ℚ) : String :=
  toString (⌊q * 10 + 1 / 2⌋ / 10) ++ "." ++ toString (⌊q * 10 + 1 / 2⌋ % 10)

/-- `PerformanceMetrics::format_comprehensive` (performance.rs lines 77-95). -/
def PerformanceMetrics.format_comprehensive (self : PerformanceMetrics) : String :=
  let output :=
    "Performance Metrics:\n  Tokens/sec: " ++ fmtDec1 self.tokens_per_second
      ++ "\n  TTFT: " ++ toString self.time_to_first_token_ms
      ++ "ms\n  Total duration: " ++ fmtDec1 ((self.total_duration_ms : ℚ) / 1000)
      ++ "s\n  Generation time: " ++ toString self.generation_time_ms
      ++ "ms\n  Avg inter-token latency: " ++ fmtDec1 self.average_inter_token_latency_ms
      ++ "ms\n  Total tokens: " ++ toString self.total_tokens
      ++ " (" ++ toString self.prompt_tokens
      ++ " prompt + " ++ toString (self.total_tokens - self.prompt_tokens)
      ++ " completion)"
  match self.prompt_processing_time_ms with
  | some prompt_processing_ms =>
      output ++ ("\n  Prompt processing: " ++ toString prompt_processing_ms ++ "ms")
  | none => output

/-- Naive substring search over character lists (`str::contains`). -/
def substrAux (pat : List Char) : List Char → Bool
  | [] => pat.isEmpty
  | c :: cs => pat.isPrefixOf (c :: cs) || substrAux pat cs

/-- `s.contains(pat)` on Rust strings: `pat` occurs inside `s`. -/
def containsSubstring (s pat : String) : Bool :=
  substrAux pat.data s.data

/-- Token metrics of the first test scenario of performance.rs. -/
def sampleTokenMetrics1 : TokenMetrics :=
  { total_tokens := 100
    prompt_tokens := 20
    time_to_first_token_ms := some 500
    time_to_last_token_ms := some 2500 }

/-- The test sample `{total_tokens=100, prompt_tokens=20, ttft=500,
ttlt=2500, start=1000, end=3000}` (performance.rs test scenario 1). -/
def sampleMetadata1 : RequestMetadata :=
  { request_start_timestamp_ms := 1000
    stream_end_timestamp_ms := 3000
    token_metrics := some sampleTokenMetrics1 }

/-- The metrics record `calculate` produces on `sampleMetadata1`. -/
def sampleMetrics1 : PerformanceMetrics :=
  { tokens_per_second := 50
    time_to_first_token_ms := 500
    total_duration_ms := 2000
    prompt_processing_time_ms := some 500
    generation_time_ms := 2000
    average_inter_token_latency_ms := (2000 : ℚ) / 99
    total_tokens := 100
    prompt_tokens := 20 }

/-- On `sampleMetadata1`, `calculate` yields exactly `sampleMetrics1`. -/
lemma calculate_sampleMetadata1 :
    PerformanceMetrics.calculate sampleMetadata1 = some sampleMetrics1 := by
  norm_num [PerformanceMetrics.calculate, sampleMetadata1, sampleTokenMetrics1,
    sampleMetrics1]

lemma isPrefixOf_append (l : List Char) :
    ∀ a b : List Char, l.isPrefixOf a = true → l.isPrefixOf (a ++ b) = true := by
  induction l with
  | nil => intro a b _; simp [List.isPrefixOf]
  | cons x xs ih =>
    intro a b h
    cases a with
    | nil => simp [List.isPrefixOf] at h
    | cons y ys =>
      simp only [List.isPrefixOf, List.cons_append, Bool.and_eq_true] at h ⊢
      exact ⟨h.1, ih ys b h.2⟩

lemma substrAux_nil (l : List Char) : substrAux [] l = true := by
  cases l <;> simp [substrAux, List.isPrefixOf]

lemma substrAux_append_left (pat : List Char) :
    ∀ a b : List Char, substrAux pat a = true → substrAux pat (a ++ b) = true := by
  intro a
  induction a with
  | nil =>
    intro b h
    simp only [substrAux, List.isEmpty_iff] at h
    subst h
    simpa using substrAux_nil b
  | cons c cs ih =>
    intro b h
    simp only [substrAux, Bool.or_eq_true] at h ⊢
    rcases h with h | h
    · exact Or.inl (isPrefixOf_append pat (c :: cs) b h)
    · exact Or.inr (ih b h)

lemma substrAux_append_right (pat : List Char) :
    ∀ a b : List Char, substrAux pat b = true → substrAux pat (a ++ b) = true := by
  intro a
  induction a with
  | nil => intro b h; simpa using h
  | cons c cs ih =>
    intro b h
    simp only [substrAux, Bool.or_eq_true, List.cons_append]
    exact Or.inr (ih b h)

lemma containsSubstring_append_left (a b pat : String)
    (h : containsSubstring a pat = true) : containsSubstring (a ++ b) pat = true := by
  unfold containsSubstring at h ⊢
  rw [String.data_append]
  exact substrAux_append_left pat.data a.data b.data h

lemma containsSubstring_append_right (a b pat : String)
    (h : containsSubstring b pat = true) : containsSubstring (a ++ b) pat = true := by
  unfold containsSubstring at h ⊢
  rw [String.data_append]
  exact substrAux_append_right pat.data a.data b.data h

/-- C2: `calculate` returns `none` exactly when `token_metrics` is absent or
`time_to_first_token_ms` is absent; with both present it returns a record. -/
theorem calculate_none_iff (m : RequestMetadata) :
    PerformanceMetrics.calculate m = none ↔
      m.token_metrics = none ∨
        ∃ tm, m.token_metrics = some tm ∧ tm.time_to_first_token_ms = none := by
  cases htm : m.token_metrics with
  | none => simp [PerformanceMetrics.calculate, htm]
  | some tm =>
    cases ht : tm.time_to_first_token_ms with
    | none => simp [PerformanceMetrics.calculate, htm, ht]
    | some ttft => simp [PerformanceMetrics.calculate, htm, ht]

/-- C3: on every success, `total_duration_ms` is the saturating difference
`stream_end − request_start` and `generation_time_ms` is the saturating
difference `ttlt.unwrap_or(ttft) − ttft`: both equal the real difference
floored at zero, so neither is ever negative, for arbitrary (out-of-order)
timestamps. -/
theorem calculate_saturating_durations (m : RequestMetadata) (tm : TokenMetrics)
    (ttft : Nat) (pm : PerformanceMetrics)
    (htm : m.token_metrics = some tm)
    (ht : tm.time_to_first_token_ms = some ttft)
    (h : PerformanceMetrics.calculate m = some pm) :
    (pm.total_duration_ms : ℤ) =
      max ((m.stream_end_timestamp_ms : ℤ) - (m.request_start_timestamp_ms : ℤ)) 0
    ∧ (pm.generation_time_ms : ℤ) =
      max (((tm.time_to_last_token_ms.getD ttft : Nat) : ℤ) - (ttft : ℤ)) 0 := by
  simp only [PerformanceMetrics.calculate, htm, ht] at h
  obtain rfl := Option.some.inj h
  constructor <;> · simp only []; omega

/-- C4: `calculate` never divides by zero — `tokens_per_second` is the
quotient only when `generation_time_ms > 0` and is `0` when it is `0`;
`average_inter_token_latency_ms` is the quotient only when
`total_tokens > 1` and is `0` when `total_tokens ≤ 1`. -/
theorem calculate_no_division_by_zero (m : RequestMetadata) (pm : PerformanceMetrics)
    (h : PerformanceMetrics.calculate m = some pm) :
    (0 < pm.generation_time_ms →
      pm.tokens_per_second =
        (pm.total_tokens : ℚ) / ((pm.generation_time_ms : ℚ) / 1000))
    ∧ (pm.generation_time_ms = 0 → pm.tokens_per_second = 0)
    ∧ (1 < pm.total_tokens →
      pm.average_inter_token_latency_ms =
        (pm.generation_time_ms : ℚ) / ((pm.total_tokens - 1 : Nat) : ℚ))
    ∧ (pm.total_tokens ≤ 1 → pm.average_inter_token_latency_ms = 0) := by
  cases htm : m.token_metrics with
  | none => simp [PerformanceMetrics.calculate, htm] at h
  | some tm =>
    cases ht : tm.time_to_first_token_ms with
    | none => simp [PerformanceMetrics.calculate, htm, ht] at h
    | some ttft =>
      simp only [PerformanceMetrics.calculate, htm, ht] at h
      obtain rfl := Option.some.inj h
      refine ⟨fun hg => ?_, fun hg => ?_, fun htot => ?_, fun htot => ?_⟩
      · simp only [if_pos hg]
      · have hg' : tm.time_to_last_token_ms.getD ttft - ttft = 0 := hg
        simp only [hg', gt_iff_lt, lt_self_iff_false, if_false]
      · simp only [if_pos htot]
      · have htot' : ¬ (tm.total_tokens > 1) := Nat.not_lt.mpr htot
        simp only [htot', if_false]


lemma fmtDec1_fifty : fmtDec1 (50 : ℚ) = "50.0" := by
  unfold fmtDec1
  rw [show ⌊(50 : ℚ) * 10 + 1 / 2⌋ = 500 by norm_num [Int.floor_eq_iff]]
  decide

lemma fmtDec1_two : fmtDec1 ((2000 : ℚ) / 1000) = "2.0" := by
  unfold fmtDec1
  rw [show ⌊(2000 : ℚ) / 1000 * 10 + 1 / 2⌋ = 20 by norm_num [Int.floor_eq_iff]]
  decide

lemma fmtDec1_latency : fmtDec1 ((2000 : ℚ) / 99) = "20.2" := by
  unfold fmtDec1
  rw [show ⌊(2000 : ℚ) / 99 * 10 + 1 / 2⌋ = 202 by norm_num [Int.floor_eq_iff]]
  decide

set_option maxRecDepth 4000 in
/-- The full text `format_comprehensive` renders for `sampleMetrics1`. -/
lemma sampleMetrics1_format :
    sampleMetrics1.format_comprehensive =
      "Performance Metrics:\n  Tokens/sec: 50.0\n  TTFT: 500ms\n  Total duration: 2.0s\n  Generation time: 2000ms\n  Avg inter-token latency: 20.2ms\n  Total tokens: 100 (20 prompt + 80 completion)\n  Prompt processing: 500ms" := by
  simp only [PerformanceMetrics.format_comprehensive, sampleMetrics1, Nat.cast_ofNat]
  rw [fmtDec1_fifty, fmtDec1_two, fmtDec1_latency]
  decide

/-- C7: on the metrics computed from the sample `{total_tokens=100,
prompt_tokens=20, ttft=500, ttlt=2500, start=1000, end=3000}`,
`format_comprehensive` contains the literal substrings `Tokens/sec: 50.0`,
`TTFT: 500ms`, `Total duration: 2.0s` and
`Total tokens: 100 (20 prompt + 80 completion)` (the completion count `80`
being the saturating difference `total_tokens − prompt_tokens`). -/
theorem format_comprehensive_sample_substrings :
    ∃ pm, PerformanceMetrics.calculate sampleMetadata1 = some pm
      ∧ containsSubstring pm.format_comprehensive "Tokens/sec: 50.0" = true
      ∧ containsSubstring pm.format_comprehensive "TTFT: 500ms" = true
      ∧ containsSubstring pm.format_comprehensive "Total duration: 2.0s" = true
      ∧ containsSubstring pm.format_comprehensive
          "Total tokens: 100 (20 prompt + 80 completion)" = true
      ∧ pm.total_tokens - pm.prompt_tokens = 80 := by
  refine ⟨sampleMetrics1, calculate_sampleMetadata1, ?_, ?_, ?_, ?_, rfl⟩ <;>
    rw [sampleMetrics1_format] <;> decide

/-- C10: every successful `calculate` sets `prompt_processing_time_ms` to
`Some(time_to_first_token_ms)`, so `format_comprehensive` of the result
always contains the trailing `Prompt processing` line. -/
theorem calculate_prompt_processing_always_some (m : RequestMetadata)
    (pm : PerformanceMetrics) (h : PerformanceMetrics.calculate m = some pm) :
    pm.prompt_processing_time_ms = some pm.time_to_first_token_ms
    ∧ containsSubstring pm.format_comprehensive "Prompt processing" = true := by
  cases htm : m.token_metrics with
  | none => simp [PerformanceMetrics.calculate, htm] at h
  | some tm =>
    cases ht : tm.time_to_first_token_ms with
    | none => simp [PerformanceMetrics.calculate, htm, ht] at h
    | some ttft =>
      simp only [PerformanceMetrics.calculate, htm, ht] at h
      obtain rfl := Option.some.inj h
      refine ⟨rfl, ?_⟩
      simp only [PerformanceMetrics.format_comprehensive]
      apply containsSubstring_append_right
      apply containsSubstring_append_left
      apply containsSubstring_append_left
      decide

/-- Witness for C3 at the concrete first test sample. -/
theorem calculate_saturating_durations_witness :
    (sampleMetrics1.total_duration_ms : ℤ) =
      max ((sampleMetadata1.stream_end_timestamp_ms : ℤ) -
        (sampleMetadata1.request_start_timestamp_ms : ℤ)) 0
    ∧ (sampleMetrics1.generation_time_ms : ℤ) =
      max (((sampleTokenMetrics1.time_to_last_token_ms.getD 500 : Nat) : ℤ) -
        ((500 : Nat) : ℤ)) 0 :=
  calculate_saturating_durations sampleMetadata1 sampleTokenMetrics1 500 sampleMetrics1
    rfl rfl calculate_sampleMetadata1

/-- Witness for C4 at the concrete first test sample. -/
theorem calculate_no_division_by_zero_witness :
    (0 < sampleMetrics1.generation_time_ms →
      sampleMetrics1.tokens_per_second =
        (sampleMetrics1.total_tokens : ℚ) / ((sampleMetrics1.generation_time_ms : ℚ) / 1000))
    ∧ (sampleMetrics1.generation_time_ms = 0 → sampleMetrics1.tokens_per_second = 0)
    ∧ (1 < sampleMetrics1.total_tokens →
      sampleMetrics1.average_inter_token_latency_ms =
        (sampleMetrics1.generation_time_ms : ℚ) /
          ((sampleMetrics1.total_tokens - 1 : Nat) : ℚ))
    ∧ (sampleMetrics1.total_tokens ≤ 1 → sampleMetrics1.average_inter_token_latency_ms = 0) :=
  calculate_no_division_by_zero sampleMetadata1 sampleMetrics1 calculate_sampleMetadata1

/-- Witness for C10 at the concrete first test sample. -/
theorem calculate_prompt_processing_always_some_witness :
    sampleMetrics1.prompt_processing_time_ms = some sampleMetrics1.time_to_first_token_ms
    ∧ containsSubstring sampleMetrics1.format_comprehensive "Prompt processing" = true :=
  calculate_prompt_processing_always_some sampleMetadata1 sampleMetrics1
    calculate_sampleMetadata1

/-- A transcript entry: a user/assistant exchange, or the synthetic
summary entry produced by the compact exit policy. -/
inductive TranscriptEntry
  | exchange (user assistant : String)
  | summary (text : String)
  deriving DecidableEq

/-- The two tangent-mode states (`mode` of the conversation branch state). -/
inductive TangentMode
  | main
  | tangent
  deriving DecidableEq

/-- Modelled from the spec: the conversation branch state owned by the
session (`ConversationState` of conversation.rs is not part of this
source tree; §3 of the spec gives `mode`, `branch_entered_at`,
`checkpoint` and the live transcript). -/
structure ConversationState where
  mode : TangentMode
  branch_entered_at : Option Nat
  checkpoint : Option (List TranscriptEntry)
  transcript : List TranscriptEntry
  deriving DecidableEq

/-- `ConversationState::is_in_tangent_mode` (modelled from the spec:
pure predicate on `mode`). -/
def ConversationState.is_in_tangent_mode (c : ConversationState) : Bool :=
  c.mode = TangentMode.tangent

/-- `ConversationState::enter_tangent_mode` (modelled from the spec:
snapshots the transcript into `checkpoint`, records the entry time, sets
`mode = Tangent`). -/
def ConversationState.enter_tangent_mode (c : ConversationState) (now : Nat) :
    ConversationState :=
  { mode := TangentMode.tangent
    branch_entered_at := some now
    checkpoint := some c.transcript
    transcript := c.transcript }

/-- `ConversationState::get_tangent_duration_seconds` (modelled from the
spec: `Some(now − branch_entered_at)` while in Tangent mode, clamped at
zero, `None` otherwise). -/
def ConversationState.get_tangent_duration_seconds (c : ConversationState)
    (now : Nat) : Option Int :=
  match c.mode, c.branch_entered_at with
  | TangentMode.tangent, some entered => some ((now - entered : Nat) : Int)
  | _, _ => none

/-- `ConversationState::exit_tangent_mode` (modelled from the spec:
restore the checkpoint verbatim, clear the branch state). -/
def ConversationState.exit_tangent_mode (c : ConversationState) : ConversationState :=
  { mode := TangentMode.main
    branch_entered_at := none
    checkpoint := none
    transcript := c.checkpoint.getD c.transcript }

/-- `ConversationState::exit_tangent_mode_with_tail` (modelled from the
spec: restore the checkpoint, then append the last exchange produced
inside the branch, when one exists). -/
def ConversationState.exit_tangent_mode_with_tail (c : ConversationState) :
    ConversationState :=
  { mode := TangentMode.main
    branch_entered_at := none
    checkpoint := none
    transcript :=
      match (c.transcript.drop (c.checkpoint.getD c.transcript).length).getLast? with
      | some entry => c.checkpoint.getD c.transcript ++ [entry]
      | none => c.checkpoint.getD c.transcript }

/-- `ConversationState::exit_tangent_mode_with_compact` (modelled from the
spec: restore the checkpoint, then append one synthetic summary entry). -/
def ConversationState.exit_tangent_mode_with_compact (c : ConversationState)
    (summary : String) : ConversationState :=
  { mode := TangentMode.main
    branch_entered_at := none
    checkpoint := none
    transcript := c.checkpoint.getD c.transcript ++ [TranscriptEntry.summary summary] }

/-- `TangentSubcommand` (tangent.rs lines 28-33). -/
inductive TangentSubcommand
  | tail
  | compact
  deriving DecidableEq

/-- The observable actions `TangentArgs::execute` performs, in program
order: status/warning/error text written to stderr, the committed
conversation mutations, and the usage-duration telemetry event. -/
inductive Event
  | printed (msg : String)
  | enteredTangent
  | exitedTangent
  | telemetrySent (duration_seconds : Int)
  deriving DecidableEq

/-- The `ChatState::PromptUser` value `execute` returns. -/
structure ChatState where
  skip_printing_tools : Bool
  deriving DecidableEq

/-- tangent.rs line 57. -/
def tangent_disabled_msg : String :=
  "\nTangent mode is disabled. Enable it with: q settings chat.enableTangentMode true\n"

/-- tangent.rs lines 73, 108, 157: the warning shown when the Checkpoint
experiment is enabled together with tangent mode. -/
def checkpoint_warning_msg : String :=
  "⚠️ Checkpoint is disabled while in tangent mode. Please exit tangent mode if you want to use checkpoint.\n"

/-- tangent.rs lines 86-90 (color codes dropped). -/
def tail_success_msg : String :=
  "Restored conversation from checkpoint (↯) with last conversation entry preserved.\n"

/-- tangent.rs line 97. -/
def tail_error_msg : String :=
  "You need to be in tangent mode to use tail.\n"

/-- tangent.rs line 122. -/
def compact_success_msg : String :=
  "✔ Tangent conversation compacted and summarized!\n"

/-- tangent.rs line 129. -/
def compact_error_msg : String :=
  "You need to be in tangent mode to use /tangent compact.\n"

/-- tangent.rs lines 143-147 (color codes dropped). -/
def toggle_exit_msg : String :=
  "Restored conversation from checkpoint (↯). - Returned to main conversation.\n"

/-- tangent.rs lines 166-173: the display character for the tangent-mode
activation shortcut; Rust `key.len()` is the UTF-8 byte length. -/
def tangent_key_char (setting : Option String) : Char :=
  match setting with
  | some key => if key.utf8ByteSize = 1 then key.toList.headD 't' else 't'
  | none => 't'

/-- tangent.rs line 174. -/
def tangent_key_display (setting : Option String) : String :=
  "ctrl + " ++ (tangent_key_char setting).toLower.toString

/-- tangent.rs lines 179-194 (color codes dropped). -/
def enter_msg (setting : Option String) : String :=
  "Created a conversation checkpoint (↯). Use " ++ tangent_key_display setting
    ++ " or /tangent to restore the conversation later.\nNote: this functionality is experimental and may change or be removed in the future.\n"

/-- `TangentArgs::execute` (tangent.rs lines 51-204), as a function of the
feature flags, the tangent-key setting, the result of the summarization
collaborator, the clock, the subcommand and the conversation state.  The result
is the trace of observable actions in program order, the final
conversation state and the returned `ChatState`; `none` models the panic
of the `unwrap()` on the summarization result (line 115). -/
def TangentArgs.execute (tangentEnabled checkpointEnabled : Bool)
    (setting : Option String) (summarizeResult : Option String) (now : Nat)
    (subcommand : Option TangentSubcommand) (conv : ConversationState) :
    Option (List Event × ConversationState × ChatState) :=
  if tangentEnabled = false then
    some ([Event.printed tangent_disabled_msg], conv, { skip_printing_tools := true })
  else
    match subcommand with
    | some TangentSubcommand.tail =>
      let warn :=
        if checkpointEnabled then [Event.printed checkpoint_warning_msg] else []
      if conv.is_in_tangent_mode then
        let duration_seconds := (conv.get_tangent_duration_seconds now).getD 0
        let conv2 := conv.exit_tangent_mode_with_tail
        some (warn ++ [Event.exitedTangent, Event.telemetrySent duration_seconds,
          Event.printed tail_success_msg], conv2, { skip_printing_tools := false })
      else
        some (warn ++ [Event.printed tail_error_msg], conv,
          { skip_printing_tools := false })
    | some TangentSubcommand.compact =>
      let warn :=
        if checkpointEnabled then [Event.printed checkpoint_warning_msg] else []
      if conv.is_in_tangent_mode then
        let duration_seconds := (conv.get_tangent_duration_seconds now).getD 0
        match summarizeResult with
        | none => none
        | some summary =>
          let conv2 := conv.exit_tangent_mode_with_compact summary
          some (warn ++ [Event.exitedTangent, Event.telemetrySent duration_seconds,
            Event.printed compact_success_msg], conv2, { skip_printing_tools := false })
      else
        some (warn ++ [Event.printed compact_error_msg], conv,
          { skip_printing_tools := false })
    | none =>
      if conv.is_in_tangent_mode then
        let duration_seconds := (conv.get_tangent_duration_seconds now).getD 0
        let conv2 := conv.exit_tangent_mode
        some ([Event.exitedTangent, Event.telemetrySent duration_seconds,
          Event.printed toggle_exit_msg], conv2, { skip_printing_tools := false })
      else
        let warn :=
          if checkpointEnabled then [Event.printed checkpoint_warning_msg] else []
        let conv2 := conv.enter_tangent_mode now
        some (warn ++ [Event.enteredTangent, Event.printed (enter_msg setting)],
          conv2, { skip_printing_tools := false })

/-- An event is the usage-duration telemetry event. -/
def Event.isTelemetry : Event → Bool
  | Event.telemetrySent _ => true
  | _ => false

/-- A concrete conversation currently inside tangent mode. -/
def tangentConv : ConversationState :=
  { mode := TangentMode.tangent
    branch_entered_at := some 5
    checkpoint := some []
    transcript := [] }

/-- A concrete conversation in the main mode. -/
def mainConv : ConversationState :=
  { mode := TangentMode.main
    branch_entered_at := none
    checkpoint := none
    transcript := [] }

/-- C1 (amended): with TangentMode and Checkpoint both enabled, the tail
and compact subcommands and the toggle-enter operation surface the
incompatibility warning first and then proceed exactly as with Checkpoint
disabled; the toggle-exit operation surfaces no warning and behaves
identically to a run with Checkpoint disabled. -/
theorem tangent_checkpoint_warning (setting summ : Option String) (now : Nat)
    (sub : Option TangentSubcommand) (conv : ConversationState) :
    (¬ (sub = none ∧ conv.is_in_tangent_mode = true) →
      TangentArgs.execute true true setting summ now sub conv =
        (TangentArgs.execute true false setting summ now sub conv).map
          (fun r => (Event.printed checkpoint_warning_msg :: r.1, r.2)))
    ∧ (sub = none → conv.is_in_tangent_mode = true →
      TangentArgs.execute true true setting summ now sub conv =
        TangentArgs.execute true false setting summ now sub conv
      ∧ ∀ r, TangentArgs.execute true true setting summ now sub conv = some r →
          Event.printed checkpoint_warning_msg ∉ r.1) := by
  constructor
  · intro hne
    cases sub with
    | none =>
      cases hmode : conv.is_in_tangent_mode with
      | true => exact absurd ⟨rfl, hmode⟩ hne
      | false => simp [TangentArgs.execute, hmode]
    | some s =>
      cases s with
      | tail => cases hmode : conv.is_in_tangent_mode <;> simp [TangentArgs.execute, hmode]
      | compact =>
        cases hmode : conv.is_in_tangent_mode <;>
          cases summ <;> simp [TangentArgs.execute, hmode]
  · rintro rfl hmode
    refine ⟨by simp [TangentArgs.execute, hmode], ?_⟩
    rintro r hr
    simp only [TangentArgs.execute, hmode] at hr
    simp only [Bool.false_eq_true, if_false, if_true] at hr
    obtain rfl := Option.some.inj hr.symm
    intro hmem
    simp [checkpoint_warning_msg, toggle_exit_msg] at hmem

/-- C1 counterexample: with both features enabled, the toggle-exit
operation (no subcommand, conversation in tangent mode) proceeds without
surfacing the incompatibility warning anywhere in its output. -/
theorem tangent_toggle_exit_no_warning :
    ∃ r, TangentArgs.execute true true none none 10 none tangentConv = some r
      ∧ Event.printed checkpoint_warning_msg ∉ r.1 :=
  ⟨([Event.exitedTangent, Event.telemetrySent 5, Event.printed toggle_exit_msg],
      ConversationState.exit_tangent_mode tangentConv,
      { skip_printing_tools := false }),
    by decide, by decide⟩

/-- Witness for C1 at a concrete input: the tail subcommand in main mode
with both features enabled prepends exactly the warning. -/
theorem tangent_checkpoint_warning_witness :
    TangentArgs.execute true true none none 7 (some TangentSubcommand.tail) mainConv =
      (TangentArgs.execute true false none none 7 (some TangentSubcommand.tail)
          mainConv).map
        (fun r => (Event.printed checkpoint_warning_msg :: r.1, r.2)) :=
  (tangent_checkpoint_warning none none 7 (some TangentSubcommand.tail) mainConv).1
    (by decide)

/-- C5: every successful exit from tangent mode (toggle-exit, tail, or
compact with a successful summary) emits exactly one usage-duration
telemetry event, carrying the elapsed branch seconds, and the event
appears in the trace strictly after the committed exit mutation; the
toggle-enter operation emits no telemetry event. -/
theorem tangent_exit_telemetry (checkpointEnabled : Bool)
    (setting summ : Option String) (now : Nat)
    (sub : Option TangentSubcommand) (conv : ConversationState) :
    (conv.is_in_tangent_mode = true →
      (sub = none ∨ sub = some TangentSubcommand.tail ∨
        (sub = some TangentSubcommand.compact ∧ ∃ s, summ = some s)) →
      ∃ l₁ d l₂ conv2 chat,
        TangentArgs.execute true checkpointEnabled setting summ now sub conv =
          some (l₁ ++ Event.exitedTangent :: Event.telemetrySent d :: l₂, conv2, chat)
        ∧ d = (conv.get_tangent_duration_seconds now).getD 0
        ∧ ((l₁ ++ Event.exitedTangent :: Event.telemetrySent d :: l₂).filter
            Event.isTelemetry).length = 1)
    ∧ (conv.is_in_tangent_mode = false → sub = none →
      ∃ tr conv2 chat,
        TangentArgs.execute true checkpointEnabled setting summ now sub conv =
          some (tr, conv2, chat)
        ∧ (tr.filter Event.isTelemetry).length = 0) := by
  constructor
  · intro hmode hsub
    rcases hsub with rfl | rfl | ⟨rfl, s, rfl⟩
    · exact ⟨[], (conv.get_tangent_duration_seconds now).getD 0,
        [Event.printed toggle_exit_msg], conv.exit_tangent_mode,
        { skip_printing_tools := false },
        by simp [TangentArgs.execute, hmode], rfl,
        by simp [Event.isTelemetry]⟩
    · refine ⟨if checkpointEnabled then [Event.printed checkpoint_warning_msg] else [],
        (conv.get_tangent_duration_seconds now).getD 0,
        [Event.printed tail_success_msg], conv.exit_tangent_mode_with_tail,
        { skip_printing_tools := false },
        by cases checkpointEnabled <;> simp [TangentArgs.execute, hmode], rfl, ?_⟩
      cases checkpointEnabled <;> simp [Event.isTelemetry]
    · refine ⟨if checkpointEnabled then [Event.printed checkpoint_warning_msg] else [],
        (conv.get_tangent_duration_seconds now).getD 0,
        [Event.printed compact_success_msg], conv.exit_tangent_mode_with_compact s,
        { skip_printing_tools := false },
        by cases checkpointEnabled <;> simp [TangentArgs.execute, hmode], rfl, ?_⟩
      cases checkpointEnabled <;> simp [Event.isTelemetry]
  · rintro hmode rfl
    refine ⟨(if checkpointEnabled then [Event.printed checkpoint_warning_msg] else [])
        ++ [Event.enteredTangent, Event.printed (enter_msg setting)],
      conv.enter_tangent_mode now, { skip_printing_tools := false },
      by cases checkpointEnabled <;> simp [TangentArgs.execute, hmode], ?_⟩
    cases checkpointEnabled <;> simp [Event.isTelemetry]

/-- Witness for C5: tail exit from a concrete tangent-mode conversation. -/
theorem tangent_exit_telemetry_witness :
    ∃ l₁ d l₂ conv2 chat,
      TangentArgs.execute true false none none 10 (some TangentSubcommand.tail)
          tangentConv =
        some (l₁ ++ Event.exitedTangent :: Event.telemetrySent d :: l₂, conv2, chat)
      ∧ d = (tangentConv.get_tangent_duration_seconds 10).getD 0
      ∧ ((l₁ ++ Event.exitedTangent :: Event.telemetrySent d :: l₂).filter
          Event.isTelemetry).length = 1 :=
  (tangent_exit_telemetry false none none 10 (some TangentSubcommand.tail)
      tangentConv).1 (by decide) (Or.inr (Or.inl rfl))

/-- C6: invoking tail or compact while not in tangent mode only prints a
user-facing error: the returned conversation state is exactly the input
state (mode, checkpoint and transcript unchanged), every event in the
trace is a print, and the trace contains the respective error message. -/
theorem tangent_invalid_exit_no_mutation (checkpointEnabled : Bool)
    (setting summ : Option String) (now : Nat)
    (sub : Option TangentSubcommand) (conv : ConversationState)
    (hsub : sub = some TangentSubcommand.tail ∨ sub = some TangentSubcommand.compact)
    (hmode : conv.is_in_tangent_mode = false) :
    ∃ tr, TangentArgs.execute true checkpointEnabled setting summ now sub conv =
        some (tr, conv, { skip_printing_tools := false })
      ∧ (∀ e ∈ tr, ∃ msg, e = Event.printed msg)
      ∧ (Event.printed tail_error_msg ∈ tr ∨ Event.printed compact_error_msg ∈ tr) := by
  rcases hsub with rfl | rfl
  · refine ⟨(if checkpointEnabled then [Event.printed checkpoint_warning_msg] else [])
        ++ [Event.printed tail_error_msg],
      by cases checkpointEnabled <;> simp [TangentArgs.execute, hmode], ?_, ?_⟩
    · cases checkpointEnabled <;> · intro e he; simp at he; rcases he with rfl | rfl <;>
        exact ⟨_, rfl⟩
    · cases checkpointEnabled <;> simp
  · refine ⟨(if checkpointEnabled then [Event.printed checkpoint_warning_msg] else [])
        ++ [Event.printed compact_error_msg],
      by cases checkpointEnabled <;> simp [TangentArgs.execute, hmode], ?_, ?_⟩
    · cases checkpointEnabled <;> · intro e he; simp at he; rcases he with rfl | rfl <;>
        exact ⟨_, rfl⟩
    · cases checkpointEnabled <;> simp

/-- Witness for C6: the tail subcommand on a concrete main-mode
conversation. -/
theorem tangent_invalid_exit_no_mutation_witness :
    ∃ tr, TangentArgs.execute true false none none 5 (some TangentSubcommand.tail)
        mainConv = some (tr, mainConv, { skip_printing_tools := false })
      ∧ (∀ e ∈ tr, ∃ msg, e = Event.printed msg)
      ∧ (Event.printed tail_error_msg ∈ tr ∨ Event.printed compact_error_msg ∈ tr) :=
  tangent_invalid_exit_no_mutation false none none 5 (some TangentSubcommand.tail)
    mainConv (Or.inl rfl) (by decide)

/-- C9: on the compact path in tangent mode the summarization result is
unconditionally unwrapped (tangent.rs line 115): a failing summarization
(modelled `none`) makes the whole operation panic (modelled `none`)
instead of being reported as a recoverable user-visible error, while any
successful summary lets the operation complete. -/
theorem compact_unwraps_summarization (checkpointEnabled : Bool)
    (setting : Option String) (now : Nat) (conv : ConversationState)
    (h : conv.is_in_tangent_mode = true) :
    TangentArgs.execute true checkpointEnabled setting none now
        (some TangentSubcommand.compact) conv = none
    ∧ ∀ s, (TangentArgs.execute true checkpointEnabled setting (some s) now
        (some TangentSubcommand.compact) conv).isSome = true := by
  constructor
  · cases checkpointEnabled <;> simp [TangentArgs.execute, h]
  · intro s
    cases checkpointEnabled <;> simp [TangentArgs.execute, h]

/-- Witness for C9 at a concrete tangent-mode conversation. -/
theorem compact_unwraps_summarization_witness :
    TangentArgs.execute true false none none 5
        (some TangentSubcommand.compact) tangentConv = none
    ∧ ∀ s, (TangentArgs.execute true false none (some s) 5
        (some TangentSubcommand.compact) tangentConv).isSome = true :=
  compact_unwraps_summarization false none 5 tangentConv (by decide)

/-- C8 (amended): the displayed activation-shortcut character is the
configured settings value when that value is a single one-byte (ASCII)
character; it falls back to `'t'` when the setting is unset or when its
UTF-8 encoding is not exactly one byte (empty, multi-character, or a
single multi-byte character). -/
theorem tangent_key_char_spec :
    (∀ c : Char, c.utf8Size = 1 → tangent_key_char (some (String.mk [c])) = c)
    ∧ (∀ key : String, key.utf8ByteSize ≠ 1 → tangent_key_char (some key) = 't')
    ∧ tangent_key_char none = 't' := by
  refine ⟨?_, ?_, rfl⟩
  · intro c hc
    simp [tangent_key_char, String.utf8ByteSize, String.utf8ByteSize.go, hc,
      String.toList]
  · intro key hk
    simp [tangent_key_char, hk]

/-- C8 counterexample: the configured value `"é"` is exactly one character
long, yet the displayed character is the fallback `'t'` rather than `'é'`:
`key.len() == 1` in the source (tangent.rs line 171) is a UTF-8 byte
length, not a character count. -/
theorem tangent_key_char_multibyte :
    "é".length = 1 ∧ tangent_key_char (some "é") = 't' ∧ ('é' : Char) ≠ 't' := by
  refine ⟨by decide, ?_, by decide⟩
  simp [tangent_key_char, show "é".utf8ByteSize = 2 by decide]

/-- Witness for C8 at concrete settings values. -/
theorem tangent_key_char_spec_witness :
    tangent_key_char (some (String.mk ['x'])) = 'x'
    ∧ tangent_key_char (some "ab") = 't' :=
  ⟨tangent_key_char_spec.1 'x' (by decide),
    tangent_key_char_spec.2.1 "ab" (by decide)⟩
